import Mathlib

/-!
Shallow embedding of `dlt/destinations/dataset.py`: the readable-dataset /
readable-relation layer (schema resolution, query synthesis, column-schema
filtering, copy-based refinement) and the destination-client resolver.

Python values are modelled as plain Lean data: `None` becomes `Option.none`,
Python truthiness of the optional fields used by the source is made explicit
(`strTruthy`, `intTruthy`, `listTruthy`), fallible code returns `Except PyErr`,
and methods that mutate `self` before possibly raising return their state
alongside an optional error so that mutations surviving an exception are
observable.  External collaborators (Schema naming rules, SQL client
capabilities, destination client factories) are records of functions supplied
as environments, exactly the capabilities the source consumes.
-/

/-- Truthiness of an optional Python string: `None` and `""` are falsy. -/
def strTruthy : Option String → Bool
  | none => false
  | some s => s != ""

/-- Truthiness of an optional Python int: `None` and `0` are falsy. -/
def intTruthy : Option Int → Bool
  | none => false
  | some n => n != 0

/-- Truthiness of an optional Python sequence: `None` and the empty sequence are falsy. -/
def listTruthy : Option (List String) → Bool
  | none => false
  | some l => !l.isEmpty

/-- Exceptions that can escape the embedded code.  Constructors model the
concrete Python exception classes raised by `dataset.py` and its collaborators:
the two `DatasetException` subclasses, `MissingDependencyException`,
`ModuleNotFoundError`, `UnboundLocalError`, `AssertionError`, attribute access
on `None`, and the bare builtin `Exception` used for the missing-SqlClient
failure. -/
inductive PyErr where
  | readableRelationHasQuery (attempted_change : String)
  | readableRelationUnknownColumn (column_name : String)
  | missingDependency (dependency : String) (extras : List String) (hint : String)
  | moduleNotFound
  | unboundLocal (var : String)
  | assertionError (msg : String)
  | noneTypeAttributeError
  | exception (msg : String)
deriving DecidableEq, Repr

/-- Message carried by `ReadableRelationHasQueryException`. -/
def readableRelationHasQueryMsg (attempted_change : String) : String :=
  "This readable relation was created with a provided sql query. You cannot change "
    ++ attempted_change ++ ". Please change the orignal sql query."

/-- Column descriptors (`TColumnSchema` dicts) are never inspected by this
module, only carried; they are modelled as opaque string payloads. -/
abbrev TColumnSchema := String

/-- The `TTableSchemaColumns` mapping: column name to column descriptor,
modelled as an insertion-ordered association list (a Python dict). -/
abbrev TTableSchemaColumns := List (String × TColumnSchema)

/-- Python dict lookup on an insertion-ordered association list. -/
def dlookup {α : Type} : List (String × α) → String → Option α
  | [], _ => none
  | (k, v) :: rest, key => if k = key then some v else dlookup rest key

/-- Python dict assignment `d[key] = v`: update in place when the key exists,
append otherwise (insertion order preserved). -/
def dinsert {α : Type} : List (String × α) → String → α → List (String × α)
  | [], key, v => [(key, v)]
  | (k, w) :: rest, key, v =>
      if k = key then (key, v) :: rest else (k, w) :: dinsert rest key v

/-- Structural content of a `dlt` `Schema`: its name and its
table-name-to-columns mapping.  The naming convention functions that a Schema
carries are modelled separately (`NamingFns`) since the claims never mix the
naming rules of two schemas. -/
structure SchemaData where
  name : String
  tables : List (String × TTableSchemaColumns)
deriving DecidableEq, Repr

/-- Modelled from the spec: the `Schema(name)` constructor yields an empty
schema named after the given string. -/
def mkSchema (name : String) : SchemaData := ⟨name, []⟩

/-- Naming convention of a Schema (`schema.naming`), an external capability. -/
structure NamingFns where
  normalize_path : String → String
  normalize_tables_path : String → String

/-- Capabilities of a `SqlClientBase` consumed by query synthesis. -/
structure SqlClientFns where
  make_qualified_table_name : String → String
  escape_column_name : String → String
  limit_clause_sql : Int → String × String

/-- Result object of `get_stored_schema`: the source only reads its `schema`
attribute, the serialized schema payload. -/
structure StateInfo where
  schema : String

/-- Slots of a destination client spec configuration relevant here: which
configuration base classes the spec subclasses. -/
structure CfgClass where
  is_dwh : Bool
  is_staging : Bool
  is_dwh_with_staging : Bool
deriving DecidableEq, Repr

/-- A `DestinationClientConfiguration` instance: its class, its
`destination_type`, the staging role flag, the bound dataset / default schema
names, and an optionally attached staging configuration. -/
inductive ConfigT : Type where
  | mk (cls : CfgClass) (destination_type : String) (as_staging_destination : Bool)
      (dataset_name : Option String) (default_schema_name : Option String)
      (staging_config : Option ConfigT) : ConfigT

def ConfigT.cls : ConfigT → CfgClass
  | .mk c _ _ _ _ _ => c

def ConfigT.destination_type : ConfigT → String
  | .mk _ t _ _ _ _ => t

def ConfigT.as_staging_destination : ConfigT → Bool
  | .mk _ _ a _ _ _ => a

def ConfigT.dataset_name : ConfigT → Option String
  | .mk _ _ _ d _ _ => d

def ConfigT.default_schema_name : ConfigT → Option String
  | .mk _ _ _ _ n _ => n

def ConfigT.staging_config : ConfigT → Option ConfigT
  | .mk _ _ _ _ _ s => s

/-- The mutation `initial_config.staging_config = staging_client.config`. -/
def ConfigT.set_staging_config : ConfigT → Option ConfigT → ConfigT
  | .mk c t a d n _, s => .mk c t a d n s

/-- A constructed `JobClientBase`: its resolved configuration and the
capability shape probed by the source (`WithStateSync`, `WithSqlClient`). -/
structure JobClient where
  config : ConfigT
  with_state_sync : Bool
  get_stored_schema : Option String → Option StateInfo
  with_sql_client : Bool
  sql_client : SqlClientFns

/-- A resolved `Destination`: its spec class, the `destination_type` the spec
instance reports, and the client factory (which may raise, e.g.
`ModuleNotFoundError` when the driver package is missing). -/
structure DestinationT where
  destination_type : String
  spec_cls : CfgClass
  client : SchemaData → ConfigT → Except PyErr JobClient

/-- Instantiation `client_spec(as_staging_destination=...)` (or plain
`client_spec()`, i.e. `as_staging = false`). -/
def DestinationT.spec_instance (d : DestinationT) (as_staging : Bool) : ConfigT :=
  .mk d.spec_cls d.destination_type as_staging none none none

/-- Modelled from the spec: `DestinationClientDwhConfiguration._bind_dataset_name`
(defined outside this module) binds the dataset name and the default schema
name onto a multi-schema/multi-dataset capable configuration. -/
def bind_dataset_name (spec : ConfigT) (dataset_name default_schema_name : Option String) :
    ConfigT :=
  match spec with
  | .mk c t a _ _ s => .mk c t a dataset_name default_schema_name s

/-- `get_destination_client_initial_config`: a DWH-capable spec is instantiated
(passing the staging role only when the spec is staging-capable) and gets the
dataset / default schema names bound; any other spec is instantiated bare. -/
def get_destination_client_initial_config (destination : DestinationT)
    (default_schema_name : Option String) (dataset_name : Option String)
    (as_staging : Bool) : ConfigT :=
  let client_spec := destination.spec_cls
  if client_spec.is_dwh then
    let spec :=
      if client_spec.is_staging then destination.spec_instance as_staging
      else destination.spec_instance false
    bind_dataset_name spec dataset_name default_schema_name
  else destination.spec_instance false

/-- Attribute access on a possibly-`None` Python object: accessing an attribute
of `None` raises `AttributeError`. -/
def attr_or_none_error : Option DestinationT → Except PyErr DestinationT
  | some d => .ok d
  | none => .error .noneTypeAttributeError

/-- Reading a Python local variable that may never have been assigned:
an unassigned read raises `UnboundLocalError`. -/
def read_local_initial_config : Option ConfigT → Except PyErr ConfigT
  | some c => .ok c
  | none => .error (.unboundLocal "initial_config")

/-- Modelled from the spec: the distribution package name constant
`version.DLT_PKG_NAME` used to spell the installable extra. -/
def DLT_PKG_NAME : String := "dlt"

/-- Body of the `try` block of `get_destination_clients`.  `initial_config` is
a Python local assigned only on the `not destination_initial_config` path; the
`Option ConfigT` local models its bound/unbound state and reads go through
`read_local_initial_config`.  Evaluation order of the source is kept: the
staging-config attachment reads `initial_config` only when a staging client
exists, and the final `destination.client(...)` resolves the `destination`
attribute before evaluating the `initial_config` argument. -/
def get_destination_clients_try (schema : SchemaData) (destination : Option DestinationT)
    (destination_dataset_name : Option String) (destination_initial_config : Option ConfigT)
    (staging : Option DestinationT) (staging_dataset_name : Option String)
    (staging_initial_config : Option ConfigT) (default_schema_name : Option String) :
    Except PyErr (JobClient × Option JobClient) := do
  let staging_client : Option JobClient ←
    match staging with
    | none => pure none
    | some st => do
        let cfg : ConfigT :=
          match staging_initial_config with
          | some c => c
          | none =>
              get_destination_client_initial_config st default_schema_name
                staging_dataset_name true
        let sc ← st.client schema cfg
        pure (some sc)
  let initial_config : Option ConfigT ←
    match destination_initial_config with
    | some _ => pure none
    | none => do
        let dst ← attr_or_none_error destination
        pure (some (get_destination_client_initial_config dst default_schema_name
          destination_dataset_name false))
  let initial_config : Option ConfigT ←
    match staging_client with
    | some sc => do
        let ic ← read_local_initial_config initial_config
        if ic.cls.is_dwh_with_staging && sc.config.cls.is_staging then
          pure (some (ic.set_staging_config (some sc.config)))
        else
          pure (some ic)
    | none => pure initial_config
  let dst ← attr_or_none_error destination
  let ic ← read_local_initial_config initial_config
  let client ← dst.client schema ic
  pure (client, staging_client)

/-- `get_destination_clients`: the `try` body with the sole
`except ModuleNotFoundError` handler, which re-raises a
`MissingDependencyException` naming the destination type and the installable
extra of the `dlt` distribution that provides the driver. -/
def get_destination_clients (schema : SchemaData) (destination : Option DestinationT)
    (destination_dataset_name : Option String) (destination_initial_config : Option ConfigT)
    (staging : Option DestinationT) (staging_dataset_name : Option String)
    (staging_initial_config : Option ConfigT) (default_schema_name : Option String) :
    Except PyErr (JobClient × Option JobClient) :=
  match get_destination_clients_try schema destination destination_dataset_name
      destination_initial_config staging staging_dataset_name staging_initial_config
      default_schema_name with
  | .error .moduleNotFound =>
      match destination with
      | some dst =>
          .error (.missingDependency (dst.destination_type ++ " destination")
            [DLT_PKG_NAME ++ "[" ++ dst.destination_type ++ "]"]
            "Dependencies for specific destinations are available as extras of dlt")
      | none => .error .noneTypeAttributeError
  | r => r

/-- The `schema` argument of `ReadableDBAPIDataset.__init__`: a full `Schema`
object, a schema name string, or `None`. -/
inductive ProvidedSchema where
  | schemaObj (s : SchemaData)
  | name (s : String)
  | absent
deriving Repr

/-- State of a `ReadableDBAPIDataset`: the identifying parameters plus the two
lazily resolved slots (`_schema`, `_sql_client`), both `None` at construction. -/
structure DatasetData where
  _dataset_name : String
  _provided_schema : ProvidedSchema
  _schema : Option SchemaData
  _sql_client : Option SqlClientFns

/-- Environment of a dataset: the resolved destination and the composite
`Schema.from_stored_schema(json.loads(payload))` deserializer (both external). -/
structure DatasetEnv where
  destination : DestinationT
  from_stored_schema : String → SchemaData

/-- `ReadableDBAPIDataset._destination_client`: first component of
`get_destination_clients(schema, destination=..., destination_dataset_name=...)`. -/
def DatasetData.destination_client (env : DatasetEnv) (d : DatasetData)
    (schema : SchemaData) : Except PyErr JobClient :=
  (get_destination_clients schema (some env.destination) (some d._dataset_name)
      none none none none none).map Prod.fst

/-- Lines 271-291 of the source: the `if not self._schema ...` / `elif` chain of
`_ensure_client_and_schema` that resolves `_schema` from the provided schema
object, the provided schema name, or the newest stored schema.  Returns the
mutated dataset together with the exception, if any, so that mutations made
before a raise remain observable. -/
def ensure_schema_step (env : DatasetEnv) (d : DatasetData) : DatasetData × Option PyErr :=
  if d._schema.isNone then
    match d._provided_schema with
    | .schemaObj s => ({ d with _schema := some s }, none)
    | .name nm =>
        match d.destination_client env (mkSchema nm) with
        | .error e => (d, some e)
        | .ok client =>
            if client.with_state_sync then
              match client.get_stored_schema (some nm) with
              | some stored =>
                  ({ d with _schema := some (env.from_stored_schema stored.schema) }, none)
              | none => ({ d with _schema := some (mkSchema nm) }, none)
            else (d, none)
    | .absent =>
        match d.destination_client env (mkSchema d._dataset_name) with
        | .error e => (d, some e)
        | .ok client =>
            if client.with_state_sync then
              match client.get_stored_schema none with
              | some stored =>
                  ({ d with _schema := some (env.from_stored_schema stored.schema) }, none)
              | none => (d, none)
            else (d, none)
  else (d, none)

/-- Lines 293-295 of the source: default to an empty Schema named after the
dataset name when the preceding steps established none. -/
def after_default (d : DatasetData) : DatasetData :=
  if d._schema.isNone then { d with _schema := some (mkSchema d._dataset_name) } else d

/-- Lines 297-306 of the source: construct the client bound to the resolved
schema (always `some` at this point, so the `getD` default is inert) and take
its `sql_client` when the client supports one; otherwise raise the bare
`Exception` naming the destination type. -/
def ensure_sql_client_step (env : DatasetEnv) (d : DatasetData) : DatasetData × Option PyErr :=
  if d._sql_client.isNone then
    match d.destination_client env (d._schema.getD (mkSchema d._dataset_name)) with
    | .error e => (d, some e)
    | .ok client =>
        if client.with_sql_client then
          ({ d with _sql_client := some client.sql_client }, none)
        else
          (d, some (.exception ("Destination " ++ client.config.destination_type
            ++ " does not support SqlClient.")))
  else (d, none)

/-- `ReadableDBAPIDataset._ensure_client_and_schema`: schema resolution chain,
then the dataset-name default, then sql-client binding. -/
def ensure_client_and_schema (env : DatasetEnv) (d : DatasetData) :
    DatasetData × Option PyErr :=
  match ensure_schema_step env d with
  | (d₁, some e) => (d₁, some e)
  | (d₁, none) => ensure_sql_client_step env (after_default d₁)

/-- The `schema` property: trigger resolution, then return `self._schema`. -/
def DatasetData.schema_property (env : DatasetEnv) (d : DatasetData) :
    DatasetData × Except PyErr (Option SchemaData) :=
  match ensure_client_and_schema env d with
  | (d', some e) => (d', .error e)
  | (d', none) => (d', .ok d'._schema)

/-- Per-relation state of a `ReadableDBAPIRelation` (the owning dataset is
supplied separately as the environment of each operation). -/
structure RelationData where
  _provided_query : Option String
  _table_name : Option String
  _limit : Option Int
  _selected_columns : Option (List String)
deriving DecidableEq, Repr

/-- `ReadableDBAPIRelation.__init__`: the constructor asserts that exactly one
of `provided_query` / `table_name` is truthy. -/
def mkRelationData (provided_query table_name : Option String) (limit : Option Int)
    (selected_columns : Option (List String)) : Except PyErr RelationData :=
  if strTruthy table_name = strTruthy provided_query then
    .error (.assertionError "Please provide either an sql query OR a table_name")
  else
    .ok ⟨provided_query, table_name, limit, selected_columns⟩

/-- Everything a relation reaches through its dataset: the resolved schema
content, the schema's naming convention and the sql client capabilities.  The
source guard `if self.schema else` is always taken since the `schema` property
never yields a falsy value once resolution succeeded. -/
structure QueryEnv where
  schema : SchemaData
  naming : NamingFns
  sql_client : SqlClientFns

/-- The `query` property for the table-backed case: synthesize
`SELECT <limit-prefix> <column-list> FROM <qualified table> <limit-suffix>`. -/
def RelationData.query_synth (env : QueryEnv) (r : RelationData) : String :=
  let table_name := env.sql_client.make_qualified_table_name
    (env.naming.normalize_tables_path (r._table_name.getD ""))
  let limit_clauses :=
    if intTruthy r._limit then env.sql_client.limit_clause_sql (r._limit.getD 0)
    else ("", "")
  let selector :=
    if listTruthy r._selected_columns then
      String.intercalate ","
        ((r._selected_columns.getD []).map
          (fun c => env.sql_client.escape_column_name (env.naming.normalize_path c)))
    else "*"
  "SELECT " ++ limit_clauses.1 ++ " " ++ selector ++ " FROM " ++ table_name
    ++ " " ++ limit_clauses.2

/-- The `query` property: a truthy provided query is returned verbatim,
otherwise the SELECT statement is synthesized. -/
def RelationData.query (env : QueryEnv) (r : RelationData) : String :=
  if strTruthy r._provided_query then r._provided_query.getD ""
  else r.query_synth env

/-- The `for sc in self._selected_columns` loop of `compute_columns_schema`:
normalize each requested column, raise on an unknown one, otherwise copy its
descriptor into the filtered mapping. -/
def filter_selected_columns (normalize : String → String)
    (columns_schema : TTableSchemaColumns) :
    List String → TTableSchemaColumns → Except PyErr TTableSchemaColumns
  | [], acc => .ok acc
  | c :: rest, acc =>
      let sc := normalize c
      match dlookup columns_schema sc with
      | none => .error (.readableRelationUnknownColumn sc)
      | some v => filter_selected_columns normalize columns_schema rest (dinsert acc sc v)

/-- `ReadableDBAPIRelation.compute_columns_schema`: slice this table's columns
out of the schema (`{}` when the table — or a `None` table name — is unknown),
return `None` for an empty slice, the full slice when no columns were selected,
and the validated filtered slice otherwise. -/
def RelationData.compute_columns_schema (env : QueryEnv) (r : RelationData) :
    Except PyErr (Option TTableSchemaColumns) :=
  let columns_schema : TTableSchemaColumns :=
    match r._table_name with
    | some tn => (dlookup env.schema.tables tn).getD []
    | none => []
  if columns_schema.isEmpty then .ok none
  else if listTruthy r._selected_columns then
    (filter_selected_columns env.naming.normalize_path columns_schema
      (r._selected_columns.getD []) []).map some
  else .ok (some columns_schema)

/-- `ReadableDBAPIRelation.__copy__`: re-run the constructor on the same
field values. -/
def RelationData.copy (r : RelationData) : Except PyErr RelationData :=
  mkRelationData r._provided_query r._table_name r._limit r._selected_columns

/-- `ReadableDBAPIRelation.limit` as a value transformer: refuse on a raw-query
relation, otherwise copy and set `_limit` on the copy. -/
def RelationData.limit (r : RelationData) (n : Int) : Except PyErr RelationData :=
  if strTruthy r._provided_query then .error (.readableRelationHasQuery "limit")
  else do
    let rel ← r.copy
    pure { rel with _limit := some n }

/-- `ReadableDBAPIRelation.select` as a value transformer: refuse on a raw-query
relation, otherwise copy, set `_selected_columns`, and eagerly validate them
via `compute_columns_schema`. -/
def RelationData.select (env : QueryEnv) (r : RelationData) (columns : List String) :
    Except PyErr RelationData :=
  if strTruthy r._provided_query then .error (.readableRelationHasQuery "select")
  else do
    let rel ← r.copy
    let rel := { rel with _selected_columns := some columns }
    let _ ← rel.compute_columns_schema env
    pure rel

/-- `ReadableDBAPIRelation.head`: sugar for `limit`. -/
def RelationData.head (r : RelationData) (n : Int := 5) : Except PyErr RelationData :=
  r.limit n

/-- An object store of relations, capturing Python object identity: an object
is its index, `__copy__` allocates a fresh index. -/
structure RelStore where
  rels : List RelationData
deriving DecidableEq, Repr

/-- The query text of the store object `i`, used to observe that a refinement
leaves the receiver untouched. -/
def RelStore.queryAt (env : QueryEnv) (s : RelStore) (i : Nat) : Option String :=
  (s.rels[i]?).map (RelationData.query env)

/-- `limit` on the store: allocate the constructor copy (already carrying the
`_limit` assignment made to the fresh, still-unshared object) and return its
index; the receiver and every other object are untouched, and on an exception
the store is returned unchanged. -/
def RelStore.limitOp (s : RelStore) (i : Nat) (n : Int) : RelStore × Except PyErr Nat :=
  match s.rels[i]? with
  | none => (s, .error .noneTypeAttributeError)
  | some r =>
      if strTruthy r._provided_query then
        (s, .error (.readableRelationHasQuery "limit"))
      else
        match r.copy with
        | .error e => (s, .error e)
        | .ok c => (⟨s.rels ++ [{ c with _limit := some n }]⟩, .ok s.rels.length)

/-- `select` on the store: allocate the copy carrying the `_selected_columns`
assignment, then eagerly validate it; on an unknown column the exception
escapes after allocation, with the receiver untouched either way. -/
def RelStore.selectOp (env : QueryEnv) (s : RelStore) (i : Nat) (columns : List String) :
    RelStore × Except PyErr Nat :=
  match s.rels[i]? with
  | none => (s, .error .noneTypeAttributeError)
  | some r =>
      if strTruthy r._provided_query then
        (s, .error (.readableRelationHasQuery "select"))
      else
        match r.copy with
        | .error e => (s, .error e)
        | .ok c =>
            let rel : RelationData := { c with _selected_columns := some columns }
            let s₁ : RelStore := ⟨s.rels ++ [rel]⟩
            match rel.compute_columns_schema env with
            | .error e => (s₁, .error e)
            | .ok _ => (s₁, .ok s.rels.length)

/-! Concrete collaborator instances used to evaluate the development on small
inputs: an identity naming convention, a LIMIT-style dialect, a destination
whose client lacks state sync, one with state sync, one without a sql client,
and one whose driver module is missing. -/

def idStr : String → String := fun s => s

def sampleNaming : NamingFns := ⟨idStr, idStr⟩

def sampleSqlFns : SqlClientFns := ⟨idStr, idStr, fun n => ("", "LIMIT " ++ toString n)⟩

def sampleQueryEnv : QueryEnv :=
  ⟨⟨"ds", [("t", [("a", "ca"), ("b", "cb")])]⟩, sampleNaming, sampleSqlFns⟩

def sampleTableRelation : RelationData := ⟨none, some "t", none, none⟩

def sampleRawRelation : RelationData := ⟨some "SELECT 1", none, none, none⟩

def sampleStore : RelStore := ⟨[sampleTableRelation]⟩

def rawStore : RelStore := ⟨[sampleRawRelation]⟩

def sampleConfig : ConfigT := .mk ⟨true, false, false⟩ "duckdb" false none none none

def sampleClient : JobClient := ⟨sampleConfig, false, fun _ => none, true, sampleSqlFns⟩

def sampleDestination : DestinationT :=
  ⟨"duckdb", ⟨true, false, false⟩, fun _ _ => .ok sampleClient⟩

def sampleDatasetEnv : DatasetEnv := ⟨sampleDestination, fun p => ⟨p, []⟩⟩

def namedDataset : DatasetData := ⟨"bar", .name "foo", none, none⟩

def resolvedDataset : DatasetData := ⟨"bar", .absent, some (mkSchema "bar"), some sampleSqlFns⟩

def syncClient : JobClient := ⟨sampleConfig, true, fun _ => some ⟨"payload"⟩, true, sampleSqlFns⟩

def syncDestination : DestinationT :=
  ⟨"duckdb", ⟨true, false, false⟩, fun _ _ => .ok syncClient⟩

def syncDatasetEnv : DatasetEnv := ⟨syncDestination, fun p => ⟨p, []⟩⟩

def noSqlConfig : ConfigT := .mk ⟨true, false, false⟩ "mock" false none none none

def noSqlClient : JobClient := ⟨noSqlConfig, false, fun _ => none, false, sampleSqlFns⟩

def noSqlDestination : DestinationT :=
  ⟨"mock", ⟨true, false, false⟩, fun _ _ => .ok noSqlClient⟩

def noSqlDatasetEnv : DatasetEnv := ⟨noSqlDestination, fun p => ⟨p, []⟩⟩

def plainDataset : DatasetData := ⟨"ds", .absent, none, none⟩

def failingDestination : DestinationT :=
  ⟨"postgres", ⟨true, false, false⟩, fun _ _ => .error .moduleNotFound⟩

/-! Association-list (Python dict) lemmas. -/

theorem dlookup_dinsert {α : Type} (l : List (String × α)) (k key : String) (v : α) :
    dlookup (dinsert l key v) k = if k = key then some v else dlookup l k := by
  induction l with
  | nil =>
      by_cases h : k = key
      · subst h; simp [dinsert, dlookup]
      · simp [dinsert, dlookup, h, Ne.symm h]
  | cons hd tl ih =>
      obtain ⟨k0, w⟩ := hd
      by_cases h0 : k0 = key
      · subst h0
        simp only [dinsert, if_pos rfl, dlookup]
        by_cases hk : k0 = k
        · subst hk; simp
        · simp [hk, Ne.symm hk]
      · simp only [dinsert, if_neg h0, dlookup, ih]
        by_cases hk : k0 = k
        · subst hk
          simp [h0]
        · simp [hk]

/-! Lemmas about the eager column-filter loop of `compute_columns_schema`. -/

theorem filter_selected_columns_ok_of_mem (normalize : String → String)
    (cs : TTableSchemaColumns) (sel : List String) :
    ∀ acc, (∀ c ∈ sel, (dlookup cs (normalize c)).isSome) →
      ∃ m, filter_selected_columns normalize cs sel acc = .ok m := by
  induction sel with
  | nil => exact fun acc _ => ⟨acc, rfl⟩
  | cons c rest ih =>
      intro acc h
      obtain ⟨v, hv⟩ := Option.isSome_iff_exists.mp (h c (by simp))
      simp only [filter_selected_columns, hv]
      exact ih _ (fun x hx => h x (by simp [hx]))

theorem filter_selected_columns_isSome (normalize : String → String)
    (cs : TTableSchemaColumns) (sel : List String) :
    ∀ acc m, filter_selected_columns normalize cs sel acc = .ok m →
      ∀ k, (dlookup m k).isSome
        ↔ ((dlookup acc k).isSome ∨ k ∈ sel.map normalize) := by
  induction sel with
  | nil =>
      intro acc m h k
      simp only [filter_selected_columns, Except.ok.injEq] at h
      subst h; simp
  | cons c rest ih =>
      intro acc m h k
      simp only [filter_selected_columns] at h
      cases hv : dlookup cs (normalize c) with
      | none => rw [hv] at h; cases h
      | some v =>
          rw [hv] at h
          rw [ih _ m h k, dlookup_dinsert]
          by_cases hk : k = normalize c
          · simp [hk]
          · simp [hk]

theorem filter_selected_columns_sub (normalize : String → String)
    (cs : TTableSchemaColumns) (sel : List String) :
    ∀ acc m, filter_selected_columns normalize cs sel acc = .ok m →
      (∀ k v, dlookup acc k = some v → dlookup cs k = some v) →
      ∀ k v, dlookup m k = some v → dlookup cs k = some v := by
  induction sel with
  | nil =>
      intro acc m h hacc
      simp only [filter_selected_columns, Except.ok.injEq] at h
      subst h; exact hacc
  | cons c rest ih =>
      intro acc m h hacc
      simp only [filter_selected_columns] at h
      cases hv : dlookup cs (normalize c) with
      | none => rw [hv] at h; cases h
      | some v =>
          rw [hv] at h
          refine ih _ m h ?_
          intro k w hkw
          rw [dlookup_dinsert] at hkw
          by_cases hk : k = normalize c
          · rw [if_pos hk] at hkw
            cases hkw
            rw [hk, hv]
          · rw [if_neg hk] at hkw
            exact hacc k w hkw

theorem filter_selected_columns_error (normalize : String → String)
    (cs : TTableSchemaColumns) (sel : List String) :
    ∀ acc, (∃ c ∈ sel, dlookup cs (normalize c) = none) →
      ∃ sc, filter_selected_columns normalize cs sel acc
          = .error (.readableRelationUnknownColumn sc)
        ∧ dlookup cs sc = none ∧ sc ∈ sel.map normalize := by
  induction sel with
  | nil => intro acc h; simp at h
  | cons c rest ih =>
      intro acc h
      cases hv : dlookup cs (normalize c) with
      | none =>
          exact ⟨normalize c, by simp [filter_selected_columns, hv], hv, by simp⟩
      | some v =>
          obtain ⟨x, hx, hxn⟩ := h
          rcases List.mem_cons.mp hx with rfl | hx'
          · rw [hv] at hxn; cases hxn
          · obtain ⟨sc, h1, h2, h3⟩ := ih (dinsert acc (normalize c) v) ⟨x, hx', hxn⟩
            exact ⟨sc, by simp [filter_selected_columns, hv, h1], h2, by simp [h3]⟩

/-! Store-level helper facts. -/

theorem copy_ok (r : RelationData)
    (hq : strTruthy r._provided_query = false)
    (htb : strTruthy r._table_name = true) : r.copy = .ok r := by
  unfold RelationData.copy mkRelationData
  rw [hq, htb]
  simp

/-- C4: on a Relation constructed from a raw SQL query, `limit` and `select`
always fail with the QueryImmutable error (`ReadableRelationHasQueryException`),
for any arguments, and the failure leaves the relation store — in particular
the receiver — unchanged. -/
theorem claim_C4_raw_query_immutable (env : QueryEnv) (s : RelStore) (i : Nat)
    (r : RelationData) (n : Int) (cols : List String)
    (hr : s.rels[i]? = some r)
    (hq : strTruthy r._provided_query = true) :
    RelStore.limitOp s i n = (s, .error (.readableRelationHasQuery "limit"))
  ∧ RelStore.selectOp env s i cols = (s, .error (.readableRelationHasQuery "select")) := by
  constructor
  · simp [RelStore.limitOp, hr, hq]
  · simp [RelStore.selectOp, hr, hq]

/-- C4 witness: the raw-query relation of the sample store. -/
theorem claim_C4_witness :
    RelStore.limitOp rawStore 0 5 = (rawStore, .error (.readableRelationHasQuery "limit"))
  ∧ RelStore.selectOp sampleQueryEnv rawStore 0 ["a"]
      = (rawStore, .error (.readableRelationHasQuery "select")) :=
  claim_C4_raw_query_immutable sampleQueryEnv rawStore 0 sampleRawRelation 5 ["a"] rfl rfl

/-- C5: the `query` property returns a (truthy) provided raw query verbatim;
otherwise it synthesizes a single SELECT of the form
`SELECT <limit-prefix> <column-list> FROM <qualified table> <limit-suffix>`,
with the client-qualified normalized table path, a `*` selector unless columns
were selected (each normalized then escaped, in requested order), and the
limit prefix/suffix from the client's dialect limit-clause generator. -/
theorem claim_C5_query_synthesis (env : QueryEnv) (r : RelationData) :
    (∀ q, r._provided_query = some q → q ≠ "" → r.query env = q)
  ∧ (∀ tn, strTruthy r._provided_query = false → r._table_name = some tn →
      r.query env
        = "SELECT "
          ++ (if intTruthy r._limit then
                (env.sql_client.limit_clause_sql (r._limit.getD 0)).1
              else "")
          ++ " "
          ++ (if listTruthy r._selected_columns then
                String.intercalate ","
                  ((r._selected_columns.getD []).map
                    (fun c => env.sql_client.escape_column_name
                      (env.naming.normalize_path c)))
              else "*")
          ++ " FROM "
          ++ env.sql_client.make_qualified_table_name
              (env.naming.normalize_tables_path tn)
          ++ " "
          ++ (if intTruthy r._limit then
                (env.sql_client.limit_clause_sql (r._limit.getD 0)).2
              else "")) := by
  constructor
  · intro q hpq hne
    have ht : strTruthy (some q) = true := by simp [strTruthy, hne]
    simp [RelationData.query, hpq, ht]
  · intro tn hq htn
    by_cases hl : intTruthy r._limit
    · simp [RelationData.query, RelationData.query_synth, hq, htn, hl]
    · simp [RelationData.query, RelationData.query_synth, hq, htn, hl]

/-- C5 witness: the raw sample relation returns its query verbatim; the
selection-and-limit-refined table relation synthesizes the expected SELECT. -/
theorem claim_C5_witness :
    RelationData.query sampleQueryEnv sampleRawRelation = "SELECT 1"
  ∧ RelationData.query sampleQueryEnv
      { sampleTableRelation with _limit := some 10, _selected_columns := some ["b", "a"] }
      = "SELECT  b,a FROM t LIMIT 10" := by
  constructor
  · exact (claim_C5_query_synthesis sampleQueryEnv sampleRawRelation).1 "SELECT 1" rfl
      (by decide)
  · have h := (claim_C5_query_synthesis sampleQueryEnv
      { sampleTableRelation with _limit := some 10, _selected_columns := some ["b", "a"] }).2
      "t" rfl rfl
    rw [h]
    rfl

/-- C10: `limit(0)` produces a relation whose synthesized query carries no
limit clause (a falsy limit is ignored at synthesis), and `select()` with zero
columns behaves as no selection: the query keeps the `*` selector and
`columns_schema` is the full table mapping. -/
theorem claim_C10_falsy_refinements (env : QueryEnv) (r : RelationData) (tn : String)
    (hq : strTruthy r._provided_query = false)
    (htn : r._table_name = some tn) (htnne : tn ≠ "") :
    (r.limit 0 = .ok { r with _limit := some 0 }
      ∧ RelationData.query env { r with _limit := some 0 }
          = RelationData.query env { r with _limit := none })
  ∧ (RelationData.select env r [] = .ok { r with _selected_columns := some [] }
      ∧ RelationData.query env { r with _selected_columns := some [] }
          = RelationData.query env { r with _selected_columns := none }
      ∧ RelationData.compute_columns_schema env { r with _selected_columns := some [] }
          = RelationData.compute_columns_schema env { r with _selected_columns := none }
      ∧ (∀ cols, dlookup env.schema.tables tn = some cols → cols ≠ [] →
          RelationData.compute_columns_schema env { r with _selected_columns := some [] }
            = .ok (some cols))) := by
  have htb : strTruthy r._table_name = true := by simp [htn, strTruthy, htnne]
  have hcopy := copy_ok r hq htb
  refine ⟨⟨?_, ?_⟩, ?_, ?_, ?_, ?_⟩
  · simp [RelationData.limit, hq, hcopy]
  · simp [RelationData.query, RelationData.query_synth, hq, intTruthy]
  · have hcc : ∃ o, RelationData.compute_columns_schema env
        { r with _selected_columns := some [] } = .ok o := by
      unfold RelationData.compute_columns_schema
      simp only [listTruthy, List.isEmpty_nil, Bool.not_true]
      split
      · exact ⟨none, rfl⟩
      · exact ⟨_, rfl⟩
    obtain ⟨o, ho⟩ := hcc
    simp [RelationData.select, hq, hcopy, ho, Except.map, Except.bind, bind, Functor.map,
      pure, Except.pure]
  · simp [RelationData.query, RelationData.query_synth, hq, listTruthy]
  · simp [RelationData.compute_columns_schema, listTruthy]
  · intro cols hcols hne
    have hie : cols.isEmpty = false := by
      cases cols with
      | nil => exact absurd rfl hne
      | cons a l => rfl
    simp [RelationData.compute_columns_schema, htn, hcols, hie, listTruthy]

/-- C10 witness: the sample table relation over the two-column table. -/
theorem claim_C10_witness :
    (RelationData.limit sampleTableRelation 0
        = .ok { sampleTableRelation with _limit := some 0 }
      ∧ RelationData.query sampleQueryEnv { sampleTableRelation with _limit := some 0 }
          = RelationData.query sampleQueryEnv { sampleTableRelation with _limit := none })
  ∧ (RelationData.select sampleQueryEnv sampleTableRelation []
        = .ok { sampleTableRelation with _selected_columns := some [] }
      ∧ RelationData.query sampleQueryEnv
          { sampleTableRelation with _selected_columns := some [] }
          = RelationData.query sampleQueryEnv
            { sampleTableRelation with _selected_columns := none }
      ∧ RelationData.compute_columns_schema sampleQueryEnv
          { sampleTableRelation with _selected_columns := some [] }
          = RelationData.compute_columns_schema sampleQueryEnv
            { sampleTableRelation with _selected_columns := none }
      ∧ (∀ cols, dlookup sampleQueryEnv.schema.tables "t" = some cols → cols ≠ [] →
          RelationData.compute_columns_schema sampleQueryEnv
            { sampleTableRelation with _selected_columns := some [] }
            = .ok (some cols))) :=
  claim_C10_falsy_refinements sampleQueryEnv sampleTableRelation "t" rfl rfl (by decide)

/-- C2: on a table-based Relation whose table has a known non-empty column
schema, a selection-refined `columns_schema` is exactly the mapping of the
requested, schema-normalized column names (keyed, no extra, no missing, values
taken from the table schema); and when any requested column is absent from the
known columns, `select` fails with UnknownColumn at refinement time — the
`select` path contains no cursor operation at all. -/
theorem claim_C2_selected_columns (env : QueryEnv) (r : RelationData) (tn : String)
    (sel : List String) (cols : TTableSchemaColumns)
    (hq : strTruthy r._provided_query = false)
    (htn : r._table_name = some tn) (htnne : tn ≠ "")
    (hcols : dlookup env.schema.tables tn = some cols) (hcne : cols ≠ [])
    (hsel : sel ≠ []) :
    ((∀ c ∈ sel, (dlookup cols (env.naming.normalize_path c)).isSome) →
      ∃ m, RelationData.compute_columns_schema env { r with _selected_columns := some sel }
          = .ok (some m)
        ∧ (∀ k, (dlookup m k).isSome ↔ k ∈ sel.map env.naming.normalize_path)
        ∧ (∀ k v, dlookup m k = some v → dlookup cols k = some v))
  ∧ ((∃ c ∈ sel, dlookup cols (env.naming.normalize_path c) = none) →
      ∃ sc, RelationData.select env r sel = .error (.readableRelationUnknownColumn sc)
        ∧ dlookup cols sc = none ∧ sc ∈ sel.map env.naming.normalize_path) := by
  have hie : cols.isEmpty = false := by
    cases cols with
    | nil => exact absurd rfl hcne
    | cons a l => rfl
  have hlt : listTruthy (some sel) = true := by
    cases sel with
    | nil => exact absurd rfl hsel
    | cons a l => rfl
  have hred : RelationData.compute_columns_schema env { r with _selected_columns := some sel }
      = (filter_selected_columns env.naming.normalize_path cols sel []).map some := by
    unfold RelationData.compute_columns_schema
    simp [htn, hcols, hie, hlt]
  constructor
  · intro hmem
    obtain ⟨m, hm⟩ := filter_selected_columns_ok_of_mem env.naming.normalize_path cols sel []
      hmem
    refine ⟨m, by rw [hred, hm]; rfl, ?_, ?_⟩
    · intro k
      have := filter_selected_columns_isSome env.naming.normalize_path cols sel [] m hm k
      simpa [dlookup] using this
    · intro k v
      exact filter_selected_columns_sub env.naming.normalize_path cols sel [] m hm
        (fun k v h => by cases h) k v
  · intro hmiss
    obtain ⟨sc, h1, h2, h3⟩ := filter_selected_columns_error env.naming.normalize_path cols sel
      [] hmiss
    have htb : strTruthy r._table_name = true := by simp [htn, strTruthy, htnne]
    have hcopy := copy_ok r hq htb
    refine ⟨sc, ?_, h2, h3⟩
    have hcompute : RelationData.compute_columns_schema env
        { r with _selected_columns := some sel }
        = .error (.readableRelationUnknownColumn sc) := by
      rw [hred, h1]; rfl
    simp [RelationData.select, hq, hcopy, hcompute, Except.map, Except.bind, bind,
      Functor.map, pure, Except.pure]

/-- C2 witness: selecting the known columns b, a (out of order) yields exactly
those two keys; selecting the unknown column x fails with UnknownColumn. -/
theorem claim_C2_witness :
    (∃ m, RelationData.compute_columns_schema sampleQueryEnv
        { sampleTableRelation with _selected_columns := some ["b", "a"] } = .ok (some m)
      ∧ (∀ k, (dlookup m k).isSome ↔ k ∈ ["b", "a"].map sampleQueryEnv.naming.normalize_path)
      ∧ (∀ k v, dlookup m k = some v
          → dlookup [("a", "ca"), ("b", "cb")] k = some v))
  ∧ (∃ sc, RelationData.select sampleQueryEnv sampleTableRelation ["x"]
        = .error (.readableRelationUnknownColumn sc)
      ∧ dlookup [("a", "ca"), ("b", "cb")] sc = none
      ∧ sc ∈ ["x"].map sampleQueryEnv.naming.normalize_path) := by
  constructor
  · exact (claim_C2_selected_columns sampleQueryEnv sampleTableRelation "t" ["b", "a"]
      [("a", "ca"), ("b", "cb")] rfl rfl (by decide) rfl (by decide) (by decide)).1
      (by decide)
  · exact (claim_C2_selected_columns sampleQueryEnv sampleTableRelation "t" ["x"]
      [("a", "ca"), ("b", "cb")] rfl rfl (by decide) rfl (by decide) (by decide)).2
      ⟨"x", by decide, by decide⟩

/-- C3 counterexample: on a table-based relation over a table whose known
columns are exactly a, `select` with the unknown column x raises UnknownColumn
instead of returning a new Relation, refuting "r.select(c...) returns a new
Relation object for any arguments". -/
theorem claim_C3_counterexample :
    (RelStore.selectOp sampleQueryEnv sampleStore 0 ["x"]).2
      = .error (.readableRelationUnknownColumn "x") := rfl

/-- C3 (amended): `limit` always returns a fresh Relation object distinct from
the receiver; `select` does so whenever the eager column validation passes and
raises its exception otherwise; in every case the receiver object is unchanged
and its `query` is identical before and after the call. -/
theorem claim_C3_refinement_amended (env : QueryEnv) (s : RelStore) (i : Nat)
    (r : RelationData) (n : Int) (cols : List String)
    (hr : s.rels[i]? = some r)
    (hq : strTruthy r._provided_query = false)
    (htb : strTruthy r._table_name = true) :
    (RelStore.limitOp s i n
        = (⟨s.rels ++ [{ r with _limit := some n }]⟩, .ok s.rels.length)
      ∧ s.rels.length ≠ i
      ∧ RelStore.queryAt env ⟨s.rels ++ [{ r with _limit := some n }]⟩ i
          = RelStore.queryAt env s i)
  ∧ (RelStore.selectOp env s i cols
        = (⟨s.rels ++ [{ r with _selected_columns := some cols }]⟩,
            match RelationData.compute_columns_schema env
                { r with _selected_columns := some cols } with
            | .ok _ => .ok s.rels.length
            | .error e => .error e)
      ∧ RelStore.queryAt env ⟨s.rels ++ [{ r with _selected_columns := some cols }]⟩ i
          = RelStore.queryAt env s i) := by
  have hcopy := copy_ok r hq htb
  have hlt : i < s.rels.length := (List.getElem?_eq_some.mp hr).1
  have hpres : ∀ x : RelationData, (s.rels ++ [x])[i]? = s.rels[i]? :=
    fun x => List.getElem?_append_left hlt
  refine ⟨⟨?_, ?_, ?_⟩, ?_, ?_⟩
  · simp [RelStore.limitOp, hr, hq, hcopy]
  · exact Nat.ne_of_gt hlt
  · simp [RelStore.queryAt, hpres]
  · cases hcc : RelationData.compute_columns_schema env
        { r with _selected_columns := some cols } with
    | ok o => simp [RelStore.selectOp, hr, hq, hcopy, hcc]
    | error e => simp [RelStore.selectOp, hr, hq, hcopy, hcc]
  · simp [RelStore.queryAt, hpres]

/-- C3 witness: refining the sample table relation by a limit and by a valid
selection allocates fresh objects and leaves object 0 untouched. -/
theorem claim_C3_witness :
    (RelStore.limitOp sampleStore 0 7
        = (⟨sampleStore.rels ++ [{ sampleTableRelation with _limit := some 7 }]⟩,
           .ok sampleStore.rels.length)
      ∧ sampleStore.rels.length ≠ 0
      ∧ RelStore.queryAt sampleQueryEnv
          ⟨sampleStore.rels ++ [{ sampleTableRelation with _limit := some 7 }]⟩ 0
          = RelStore.queryAt sampleQueryEnv sampleStore 0)
  ∧ (RelStore.selectOp sampleQueryEnv sampleStore 0 ["b"]
        = (⟨sampleStore.rels ++ [{ sampleTableRelation with _selected_columns := some ["b"] }]⟩,
            match RelationData.compute_columns_schema sampleQueryEnv
                { sampleTableRelation with _selected_columns := some ["b"] } with
            | .ok _ => .ok sampleStore.rels.length
            | .error e => .error e)
      ∧ RelStore.queryAt sampleQueryEnv
          ⟨sampleStore.rels ++ [{ sampleTableRelation with _selected_columns := some ["b"] }]⟩ 0
          = RelStore.queryAt sampleQueryEnv sampleStore 0) :=
  claim_C3_refinement_amended sampleQueryEnv sampleStore 0 sampleTableRelation 7 ["b"]
    rfl rfl rfl

/-! Lemmas about the lazy resolution steps of the dataset. -/

theorem ensure_schema_step_sql_client (env : DatasetEnv) (d : DatasetData) :
    ((ensure_schema_step env d).1)._sql_client = d._sql_client := by
  unfold ensure_schema_step
  split
  · split
    · rfl
    · split
      · rfl
      · split
        · split <;> rfl
        · rfl
    · split
      · rfl
      · split
        · split <;> rfl
        · rfl
  · rfl

theorem ensure_schema_step_of_some (env : DatasetEnv) (d : DatasetData) (s : SchemaData)
    (h : d._schema = some s) : ensure_schema_step env d = (d, none) := by
  unfold ensure_schema_step
  simp [h]

theorem after_default_of_some (d : DatasetData) (s : SchemaData) (h : d._schema = some s) :
    after_default d = d := by
  simp [after_default, h]

theorem after_default_sql (d : DatasetData) :
    (after_default d)._sql_client = d._sql_client := by
  unfold after_default; split <;> rfl

theorem after_default_isSome (d : DatasetData) : (after_default d)._schema.isSome := by
  cases hd : d._schema with
  | none => simp [after_default, hd]
  | some s => simp [after_default, hd]

theorem ensure_sql_fst_schema (env : DatasetEnv) (d : DatasetData) :
    ((ensure_sql_client_step env d).1)._schema = d._schema := by
  unfold ensure_sql_client_step
  split
  · split
    · rfl
    · split <;> rfl
  · rfl

theorem ensure_sql_of_some (env : DatasetEnv) (d : DatasetData) (c : SqlClientFns)
    (h : d._sql_client = some c) : ensure_sql_client_step env d = (d, none) := by
  unfold ensure_sql_client_step
  simp [h]

theorem ensure_fst_schema_of_step (env : DatasetEnv) (d d₁ : DatasetData) (s : SchemaData)
    (h : ensure_schema_step env d = (d₁, none)) (hs : d₁._schema = some s) :
    ((ensure_client_and_schema env d).1)._schema = some s := by
  unfold ensure_client_and_schema
  rw [h]
  show ((ensure_sql_client_step env (after_default d₁)).1)._schema = some s
  rw [ensure_sql_fst_schema, after_default_of_some d₁ s hs]
  exact hs

theorem ensure_fst_schema_of_step_none (env : DatasetEnv) (d d₁ : DatasetData)
    (h : ensure_schema_step env d = (d₁, none)) (hs : d₁._schema = none) :
    ((ensure_client_and_schema env d).1)._schema = some (mkSchema d₁._dataset_name) := by
  unfold ensure_client_and_schema
  rw [h]
  show ((ensure_sql_client_step env (after_default d₁)).1)._schema
      = some (mkSchema d₁._dataset_name)
  rw [ensure_sql_fst_schema]
  simp [after_default, hs]

/-- C6: resolution happens at most once per Dataset: a resolved `_schema` and a
resolved `_sql_client` are never replaced by any later `_ensure_client_and_schema`
run (a fully resolved dataset is returned untouched with no error), and any run
that finishes without an exception leaves `_schema` non-None, which is what the
`schema` property returns. -/
theorem claim_C6_single_resolution (env : DatasetEnv) (d : DatasetData) :
    (∀ s, d._schema = some s → ((ensure_client_and_schema env d).1)._schema = some s)
  ∧ (∀ c, d._sql_client = some c
      → ((ensure_client_and_schema env d).1)._sql_client = some c)
  ∧ ((ensure_client_and_schema env d).2 = none
      → ((ensure_client_and_schema env d).1)._schema.isSome)
  ∧ (∀ s c, d._schema = some s → d._sql_client = some c
      → ensure_client_and_schema env d = (d, none)) := by
  refine ⟨?_, ?_, ?_, ?_⟩
  · intro s hs
    exact ensure_fst_schema_of_step env d d s (ensure_schema_step_of_some env d s hs) hs
  · intro c hc
    cases hstep : ensure_schema_step env d with
    | mk d₁ o =>
        have hs1 : d₁._sql_client = d._sql_client := by
          have h := ensure_schema_step_sql_client env d
          rw [hstep] at h
          exact h
        unfold ensure_client_and_schema
        rw [hstep]
        cases o with
        | some e =>
            show d₁._sql_client = some c
            rw [hs1]; exact hc
        | none =>
            show ((ensure_sql_client_step env (after_default d₁)).1)._sql_client = some c
            have hsc : (after_default d₁)._sql_client = some c := by
              rw [after_default_sql, hs1]; exact hc
            rw [ensure_sql_of_some env _ c hsc]
            exact hsc
  · intro hnone
    cases hstep : ensure_schema_step env d with
    | mk d₁ o =>
        unfold ensure_client_and_schema at hnone ⊢
        rw [hstep] at hnone ⊢
        cases o with
        | some e => exact absurd hnone (by simp)
        | none =>
            show ((ensure_sql_client_step env (after_default d₁)).1)._schema.isSome
            rw [ensure_sql_fst_schema]
            exact after_default_isSome d₁
  · intro s c hs hc
    have h1 := ensure_schema_step_of_some env d s hs
    unfold ensure_client_and_schema
    rw [h1]
    show ensure_sql_client_step env (after_default d) = (d, none)
    rw [after_default_of_some d s hs]
    exact ensure_sql_of_some env d c hc

/-- C6 witness: a fully resolved dataset is returned unchanged with no error. -/
theorem claim_C6_witness :
    ensure_client_and_schema sampleDatasetEnv resolvedDataset = (resolvedDataset, none) :=
  (claim_C6_single_resolution sampleDatasetEnv resolvedDataset).2.2.2
    (mkSchema "bar") sampleSqlFns rfl rfl

/-- C1 counterexample: with a provided schema-name string "foo", a dataset
named "bar" and a destination client that does not support reading stored
schema state, resolution falls back to an empty Schema named after the
DATASET name "bar" — not after the given string "foo" as the claim states. -/
theorem claim_C1_counterexample :
    (ensure_client_and_schema sampleDatasetEnv namedDataset).1._schema
        = some (mkSchema "bar")
  ∧ (ensure_client_and_schema sampleDatasetEnv namedDataset).1._schema
        ≠ some (mkSchema "foo") := by
  constructor
  · rfl
  · intro h
    rw [show (ensure_client_and_schema sampleDatasetEnv namedDataset).1._schema
        = some (mkSchema "bar") from rfl] at h
    exact absurd (Option.some.inj h) (by decide)

/-- C1 (amended): schema resolution precedence of an unresolved Dataset:
(a) an explicit Schema object is adopted verbatim, under every environment, so
no destination lookup can influence it; (b) a schema-name string with a
state-sync client and a stored schema of that name loads exactly the
deserialized stored payload; (c) a schema-name string with a state-sync client
and nothing stored falls back to an empty Schema named after the given string;
(d) a schema-name string with a client that cannot read stored state falls back
to an empty Schema named after the DATASET name; (e) no schema hint with a
state-sync client and a stored latest schema loads the deserialized payload;
(f) no schema hint otherwise falls back to an empty Schema named after the
dataset name. -/
theorem claim_C1_schema_resolution_amended (env : DatasetEnv) (d : DatasetData)
    (hd : d._schema = none) :
    (∀ s, d._provided_schema = .schemaObj s →
        ((ensure_client_and_schema env d).1)._schema = some s)
  ∧ (∀ nm cl payload, d._provided_schema = .name nm →
        d.destination_client env (mkSchema nm) = .ok cl →
        cl.with_state_sync = true →
        cl.get_stored_schema (some nm) = some ⟨payload⟩ →
        ((ensure_client_and_schema env d).1)._schema
          = some (env.from_stored_schema payload))
  ∧ (∀ nm cl, d._provided_schema = .name nm →
        d.destination_client env (mkSchema nm) = .ok cl →
        cl.with_state_sync = true →
        cl.get_stored_schema (some nm) = none →
        ((ensure_client_and_schema env d).1)._schema = some (mkSchema nm))
  ∧ (∀ nm cl, d._provided_schema = .name nm →
        d.destination_client env (mkSchema nm) = .ok cl →
        cl.with_state_sync = false →
        ((ensure_client_and_schema env d).1)._schema
          = some (mkSchema d._dataset_name))
  ∧ (∀ cl payload, d._provided_schema = .absent →
        d.destination_client env (mkSchema d._dataset_name) = .ok cl →
        cl.with_state_sync = true →
        cl.get_stored_schema none = some ⟨payload⟩ →
        ((ensure_client_and_schema env d).1)._schema
          = some (env.from_stored_schema payload))
  ∧ (∀ cl, d._provided_schema = .absent →
        d.destination_client env (mkSchema d._dataset_name) = .ok cl →
        (cl.with_state_sync = false ∨ cl.get_stored_schema none = none) →
        ((ensure_client_and_schema env d).1)._schema
          = some (mkSchema d._dataset_name)) := by
  refine ⟨?_, ?_, ?_, ?_, ?_, ?_⟩
  · intro s hp
    have hstep : ensure_schema_step env d = ({ d with _schema := some s }, none) := by
      unfold ensure_schema_step
      simp [hd, hp]
    exact ensure_fst_schema_of_step env d _ s hstep rfl
  · intro nm cl payload hp hcl hsync hst
    have hstep : ensure_schema_step env d
        = ({ d with _schema := some (env.from_stored_schema payload) }, none) := by
      unfold ensure_schema_step
      simp [hd, hp, hcl, hsync, hst]
    exact ensure_fst_schema_of_step env d _ _ hstep rfl
  · intro nm cl hp hcl hsync hst
    have hstep : ensure_schema_step env d
        = ({ d with _schema := some (mkSchema nm) }, none) := by
      unfold ensure_schema_step
      simp [hd, hp, hcl, hsync, hst]
    exact ensure_fst_schema_of_step env d _ _ hstep rfl
  · intro nm cl hp hcl hsync
    have hstep : ensure_schema_step env d = (d, none) := by
      unfold ensure_schema_step
      simp [hd, hp, hcl, hsync]
    exact ensure_fst_schema_of_step_none env d d hstep hd
  · intro cl payload hp hcl hsync hst
    have hstep : ensure_schema_step env d
        = ({ d with _schema := some (env.from_stored_schema payload) }, none) := by
      unfold ensure_schema_step
      simp [hd, hp, hcl, hsync, hst]
    exact ensure_fst_schema_of_step env d _ _ hstep rfl
  · intro cl hp hcl hcase
    have hstep : ensure_schema_step env d = (d, none) := by
      unfold ensure_schema_step
      rcases hcase with hsync | hst
      · simp [hd, hp, hcl, hsync]
      · cases hsync : cl.with_state_sync
        · simp [hd, hp, hcl, hsync]
        · simp [hd, hp, hcl, hsync, hst]
    exact ensure_fst_schema_of_step_none env d d hstep hd

/-- C1 witness: under a state-sync destination that stores a schema payload,
a name-hinted dataset resolves to the deserialized stored schema, and a
dataset with an explicit Schema object adopts it verbatim. -/
theorem claim_C1_witness :
    (ensure_client_and_schema syncDatasetEnv namedDataset).1._schema
        = some (syncDatasetEnv.from_stored_schema "payload")
  ∧ (ensure_client_and_schema sampleDatasetEnv
        ⟨"bar", .schemaObj (mkSchema "explicit"), none, none⟩).1._schema
        = some (mkSchema "explicit") := by
  constructor
  · exact (claim_C1_schema_resolution_amended syncDatasetEnv namedDataset rfl).2.1
      "foo" syncClient "payload" rfl rfl rfl rfl
  · exact (claim_C1_schema_resolution_amended sampleDatasetEnv
      ⟨"bar", .schemaObj (mkSchema "explicit"), none, none⟩ rfl).1 (mkSchema "explicit") rfl

/-- C8 counterexample: a destination whose client lacks sql-client capability
makes resolution fail with the BARE builtin `Exception` (the `PyErr.exception`
constructor, not a dedicated error class), though its message does name the
destination type. -/
theorem claim_C8_counterexample :
    (ensure_client_and_schema noSqlDatasetEnv plainDataset).2
      = some (.exception "Destination mock does not support SqlClient.") := rfl

/-- C8 (amended): when the resolved destination client does not expose
sql-client capability, resolution fails with a generic builtin `Exception`
whose message names the destination type and states that it does not support
SqlClient; no dedicated error class is used. -/
theorem claim_C8_no_sql_client_amended (env : DatasetEnv) (d d₁ : DatasetData)
    (cl : JobClient)
    (hstep : ensure_schema_step env d = (d₁, none))
    (hsql : d._sql_client = none)
    (hcl : (after_default d₁).destination_client env
        ((after_default d₁)._schema.getD (mkSchema (after_default d₁)._dataset_name))
        = .ok cl)
    (hcap : cl.with_sql_client = false) :
    ensure_client_and_schema env d
      = (after_default d₁,
         some (.exception ("Destination " ++ cl.config.destination_type
           ++ " does not support SqlClient."))) := by
  have hsql1 : d₁._sql_client = none := by
    have h := ensure_schema_step_sql_client env d
    rw [hstep] at h
    rw [h]; exact hsql
  unfold ensure_client_and_schema
  rw [hstep]
  show ensure_sql_client_step env (after_default d₁) = _
  unfold ensure_sql_client_step
  rw [after_default_sql]
  simp [hsql1, hcl, hcap]

/-- C8 witness: the mock no-sql destination triggers the generic failure. -/
theorem claim_C8_witness :
    ensure_client_and_schema noSqlDatasetEnv plainDataset
      = (after_default plainDataset,
         some (.exception ("Destination " ++ noSqlClient.config.destination_type
           ++ " does not support SqlClient."))) :=
  claim_C8_no_sql_client_amended noSqlDatasetEnv plainDataset plainDataset noSqlClient
    rfl rfl rfl rfl

/-- C7: when constructing the destination client fails because the driver
module is unavailable (`ModuleNotFoundError`), `get_destination_clients` fails
with `MissingDependencyException` naming the destination type and the
installable dlt extra that provides it, wrapping — not propagating — the raw
module-not-found condition. -/
theorem claim_C7_missing_dependency (schema : SchemaData) (dst : DestinationT)
    (ddn : Option String) (dsn : Option String)
    (hfail : dst.client schema
        (get_destination_client_initial_config dst dsn ddn false)
        = .error .moduleNotFound) :
    get_destination_clients schema (some dst) ddn none none none none dsn
      = .error (.missingDependency (dst.destination_type ++ " destination")
          [DLT_PKG_NAME ++ "[" ++ dst.destination_type ++ "]"]
          "Dependencies for specific destinations are available as extras of dlt")
    ∧ get_destination_clients schema (some dst) ddn none none none none dsn
      ≠ .error .moduleNotFound := by
  have htry : get_destination_clients_try schema (some dst) ddn none none none none dsn
      = .error PyErr.moduleNotFound := by
    show (dst.client schema (get_destination_client_initial_config dst dsn ddn false)
      >>= fun client => pure (client, none)) = .error PyErr.moduleNotFound
    rw [hfail]
    rfl
  constructor
  · unfold get_destination_clients
    rw [htry]
  · unfold get_destination_clients
    rw [htry]
    simp

/-- C7 witness: a destination whose client factory raises ModuleNotFoundError. -/
theorem claim_C7_witness :
    get_destination_clients (mkSchema "s") (some failingDestination) (some "ds")
        none none none none none
      = .error (.missingDependency "postgres destination" ["dlt[postgres]"]
          "Dependencies for specific destinations are available as extras of dlt") :=
  (claim_C7_missing_dependency (mkSchema "s") failingDestination (some "ds") none rfl).1

/-- C9: when `destination_initial_config` is supplied, the local
`initial_config` is never assigned, so the supplied configuration is never
used (the call's outcome does not depend on it at all), and — staging aside —
constructing the destination client fails with UnboundLocalError instead of
returning a client built from the provided configuration. -/
theorem claim_C9_initial_config_unbound (schema : SchemaData)
    (destination : Option DestinationT) (ddn : Option String) (cfg cfg₂ : ConfigT)
    (staging : Option DestinationT) (sdn : Option String) (sic : Option ConfigT)
    (dsn : Option String) :
    get_destination_clients schema destination ddn (some cfg) staging sdn sic dsn
      = get_destination_clients schema destination ddn (some cfg₂) staging sdn sic dsn
  ∧ (∀ dst, destination = some dst → staging = none →
      get_destination_clients schema destination ddn (some cfg) staging sdn sic dsn
        = .error (.unboundLocal "initial_config")) := by
  constructor
  · rfl
  · intro dst hdst hstag
    subst hdst
    subst hstag
    rfl

/-- C9 witness: a concrete supplied configuration is ignored and the call
fails with UnboundLocalError. -/
theorem claim_C9_witness :
    get_destination_clients (mkSchema "s") (some sampleDestination) (some "ds")
        (some sampleConfig) none none none none
      = .error (.unboundLocal "initial_config") :=
  (claim_C9_initial_config_unbound (mkSchema "s") (some sampleDestination) (some "ds")
      sampleConfig sampleConfig none none none none).2 sampleDestination rfl rfl
